import Mathlib

/-!
Verification of the messaging data layer of react-native-true-sheet's example app
(`example/shared/src/services/messageService.ts`, consumed by `ConversationSheet`).

The service is embedded shallowly:
* JavaScript numbers appearing as indices are modelled as `Int` (with `Option Int`
  standing for a possibly-NaN `parseInt` result: `none` models NaN, which in the
  source collapses `Array.slice` to the empty slice and makes every comparison false);
* `Array.slice` is modelled by `jsSlice` with JavaScript's clamping semantics;
* `parseInt(s, 10)` is modelled by `jsParseInt` (leading whitespace, optional sign,
  longest digit run, `none` when no digit is found);
* the module-level `Map` caches are modelled as functions `String → Option (List _)`
  threaded explicitly through each operation;
* the sources of randomness (`Date.now()`, `generateId()`, `getRandomItem`,
  `Math.random()` for unread counts) are parameters, since each claim is
  independent of their values;
* `async` controller callbacks are split at their single `await` point into a
  synchronous start phase (guard checks, optimistic updates, issuing the request)
  and a finish phase taking the outcome (`success`/`failure`), the finish phase
  incorporating the `finally`-style cleanup.
-/

/-- JavaScript truthiness of an optional string: `undefined` and `""` are falsy. -/
def strTruthy : Option String → Bool
  | none => false
  | some s => !s.isEmpty

/-- Decimal digit test used by the `parseInt` model. -/
def isDigitCh (c : Char) : Bool := decide ('0' ≤ c) && decide (c ≤ '9')

/-- Model of JavaScript `parseInt(s, 10)`: skip leading whitespace, read an optional
sign, then the longest run of decimal digits; `none` (NaN) when that run is empty. -/
def jsParseInt (s : String) : Option Int :=
  let cs := s.data.dropWhile Char.isWhitespace
  let cs1 := if cs.head? = some '-' ∨ cs.head? = some '+' then cs.tail else cs
  let ds := cs1.takeWhile isDigitCh
  if ds = [] then none
  else
    let m : Nat := ds.foldl (fun a c => a * 10 + (c.toNat - 48)) 0
    some (if cs.head? = some '-' then -(m : Int) else (m : Int))

/-- Resolve one `Array.slice` bound the way JavaScript does: a negative index counts
from the end (clamped at 0), a nonnegative one is clamped at the length. -/
def jsSliceIdx (len : Nat) (i : Int) : Nat :=
  if i < 0 then ((len : Int) + i).toNat else min i.toNat len

/-- Model of JavaScript `Array.prototype.slice(start, stop)`. -/
def jsSlice {α : Type} (l : List α) (start stop : Int) : List α :=
  (l.take (jsSliceIdx l.length stop)).drop (jsSliceIdx l.length start)

/-- Embeds `User` from messageService. -/
structure User where
  id : String
  name : String
  avatar : String
  deriving Repr, DecidableEq

/-- Embeds `MessagePreview` from messageService; `timestamp` is epoch milliseconds. -/
structure MessagePreview where
  id : String
  user : User
  lastMessage : String
  timestamp : Int
  unreadCount : Nat
  deriving Repr, DecidableEq

/-- Embeds `ChatMessage` from messageService; `timestamp` is epoch milliseconds. -/
structure ChatMessage where
  id : String
  conversationId : String
  senderId : String
  text : String
  timestamp : Int
  isSent : Bool
  deriving Repr, DecidableEq

/-- Embeds `PaginatedResponse<T>` from messageService. -/
structure PaginatedResponse (α : Type) where
  data : List α
  hasMore : Bool
  nextCursor : Option String
  deriving Repr, DecidableEq

/-- Embeds the `NAMES` sample-data constant. -/
def NAMES : List String :=
  ["Alice Johnson", "Bob Smith", "Charlie Brown", "Diana Prince", "Eve Williams",
   "Frank Miller", "Grace Lee", "Henry Davis", "Ivy Chen", "Jack Wilson",
   "Kate Turner", "Leo Martinez"]

/-- Embeds the `CHAT_MESSAGES` sample-data constant. -/
def CHAT_MESSAGES : List String :=
  ["Hello!", "Hey there!", "How are you doing today?",
   "I am doing great, thanks for asking!", "What are you up to this weekend?",
   "Not much, just relaxing. You?", "Same here. Maybe catch a movie?",
   "Sounds like a plan!", "Which movie were you thinking?",
   "How about that new action film?", "Perfect, I heard it is really good",
   "Great, let us plan for Saturday then", "Works for me!", "See you then!",
   "Can not wait!"]

/-- Embeds `getAvatarUrl`. -/
def getAvatarUrl (index : Nat) : String :=
  "https://i.pravatar.cc/150?img=" ++ toString (index % 70 + 1)

/-- The random inputs one call to `generateMessagePreviews` draws on: `Date.now()`,
the `generateId()` cache id, `getRandomItem(MESSAGE_SNIPPETS)` per index, and the
`Math.random()`-derived unread count per index. -/
structure PreviewRandomCtx where
  now : Int
  cacheId : String
  snippetAt : Nat → String
  unreadAt : Nat → Nat

/-- Embeds `generateMessagePreviews` (timestamps step back 30 minutes per index). -/
def generateMessagePreviews (count : Nat) (r : PreviewRandomCtx) : List MessagePreview :=
  (List.range count).map fun i =>
    { id := "preview-" ++ r.cacheId ++ "-" ++ toString i
      user :=
        { id := "user-" ++ r.cacheId ++ "-" ++ toString i
          name := NAMES.getD (i % NAMES.length) ""
          avatar := getAvatarUrl i }
      lastMessage := r.snippetAt i
      timestamp := r.now - (i : Int) * 1000 * 60 * 30
      unreadCount := r.unreadAt i }

/-- Embeds `generateChatMessages`: message `i` of `count` is stamped
`now - (count - 1 - i) * 2 minutes` and is outgoing exactly when `i` is even. -/
def generateChatMessages (conversationId : String) (count : Nat) (now : Int)
    (cacheId : String) : List ChatMessage :=
  (List.range count).map fun i =>
    { id := "msg-" ++ cacheId ++ "-" ++ toString i
      conversationId := conversationId
      senderId := if i % 2 = 0 then "current-user" else "other-user"
      text := CHAT_MESSAGES.getD (i % CHAT_MESSAGES.length) ""
      timestamp := now - ((count : Int) - 1 - (i : Int)) * 1000 * 60 * 2
      isSent := decide (i % 2 = 0) }

/-- A module-level cache `Map` (`messageCache` / `chatCache`), as a keyed lookup. -/
abbrev Cache (α : Type) := String → Option (List α)

/-- The empty cache, the state of the module before any fetch. -/
def emptyCache {α : Type} : Cache α := fun _ => none

/-- Setting one key of a cache (`Map.set`). -/
def cacheSet {α : Type} (c : Cache α) (key : String) (v : List α) : Cache α :=
  fun k => if k = key then some v else c k

/-- The page computation of `fetchMessagePreviews` (lines 224-232): parse the cursor
(absent or `""` means offset 0), cap the page size at 20, slice forward. A NaN
cursor yields the empty slice, a false comparison and an undefined cursor. -/
def fetchMessagePreviewsPage {α : Type} (count : Nat) (cursor : Option String)
    (allMessages : List α) : PaginatedResponse α :=
  let parsed : Option Int := if strTruthy cursor then jsParseInt (cursor.getD "") else some 0
  match parsed with
  | none => { data := [], hasMore := false, nextCursor := none }
  | some startIndex =>
    let pageSize : Int := min (count : Int) 20
    let endIndex : Int := min (startIndex + pageSize) (allMessages.length : Int)
    { data := jsSlice allMessages startIndex endIndex
      hasMore := decide (endIndex < (allMessages.length : Int))
      nextCursor := if endIndex < (allMessages.length : Int) then some (toString endIndex) else none }

/-- Embeds `fetchMessagePreviews`: materialize the `previews-{count}` entry with
`generateMessagePreviews(count * 3)` when absent, then serve a forward page. -/
def fetchMessagePreviews (count : Nat) (cursor : Option String)
    (cache : Cache MessagePreview) (r : PreviewRandomCtx) :
    PaginatedResponse MessagePreview × Cache MessagePreview :=
  let cacheKey := "previews-" ++ toString count
  let cache1 :=
    match cache cacheKey with
    | some _ => cache
    | none => cacheSet cache cacheKey (generateMessagePreviews (count * 3) r)
  let allMessages := (cache1 cacheKey).getD []
  (fetchMessagePreviewsPage count cursor allMessages, cache1)

/-- The page computation of `fetchChatMessages` (lines 250-259): parse the cursor as
the exclusive upper bound (absent or `""` means the length), cap the page size at 20,
slice backward from it. A NaN cursor yields the empty slice and false comparisons. -/
def fetchChatMessagesPage {α : Type} (count : Nat) (cursor : Option String)
    (allMessages : List α) : PaginatedResponse α :=
  let parsed : Option Int :=
    if strTruthy cursor then jsParseInt (cursor.getD "") else some (allMessages.length : Int)
  match parsed with
  | none => { data := [], hasMore := false, nextCursor := none }
  | some endIndex =>
    let pageSize : Int := min (count : Int) 20
    let startIndex : Int := max (endIndex - pageSize) 0
    { data := jsSlice allMessages startIndex endIndex
      hasMore := decide (0 < startIndex)
      nextCursor := if 0 < startIndex then some (toString startIndex) else none }

/-- Embeds `fetchChatMessages`: materialize the `chat-{conversationId}` entry with
`generateChatMessages(conversationId, count * 3)` when absent, then serve a
backward page. -/
def fetchChatMessages (conversationId : String) (count : Nat) (cursor : Option String)
    (cache : Cache ChatMessage) (now : Int) (cacheId : String) :
    PaginatedResponse ChatMessage × Cache ChatMessage :=
  let cacheKey := "chat-" ++ conversationId
  let cache1 :=
    match cache cacheKey with
    | some _ => cache
    | none => cacheSet cache cacheKey (generateChatMessages conversationId (count * 3) now cacheId)
  let allMessages := (cache1 cacheKey).getD []
  (fetchChatMessagesPage count cursor allMessages, cache1)

/-- Embeds `sendMessage`: build the outgoing message (fresh id and timestamp are the
`newId` and `now` parameters), push it onto the `chat-{conversationId}` entry when
that entry exists, and return it. -/
def sendMessage (conversationId : String) (text : String) (cache : Cache ChatMessage)
    (newId : String) (now : Int) : ChatMessage × Cache ChatMessage :=
  let newMessage : ChatMessage :=
    { id := newId
      conversationId := conversationId
      senderId := "current-user"
      text := text
      timestamp := now
      isSent := true }
  let cacheKey := "chat-" ++ conversationId
  let cache1 :=
    match cache cacheKey with
    | some msgs => cacheSet cache cacheKey (msgs ++ [newMessage])
    | none => cache
  (newMessage, cache1)

/-- Model of JavaScript `String.prototype.trim`: strip whitespace from both ends. -/
def jsTrim (s : String) : String :=
  ((s.data.dropWhile Char.isWhitespace).reverse.dropWhile Char.isWhitespace).reverse.asString

/-- The client state of one `ConversationSheet` (both variants hold the same fields):
the `chatLoadingMoreRef` ref is the in-flight guard, the rest are `useState` cells. -/
structure SyncState where
  chatLoadingMoreRef : Bool
  chatMessages : List ChatMessage
  chatLoading : Bool
  chatLoadingMore : Bool
  chatHasMore : Bool
  chatCursor : Option String
  selectedConversation : Option MessagePreview
  inputText : String
  deriving Repr, DecidableEq

/-- The arguments of one underlying `fetchChatMessages` call issued by the controller. -/
structure ChatFetchRequest where
  conversationId : String
  count : Nat
  cursor : Option String
  deriving Repr, DecidableEq

/-- Outcome of an awaited asynchronous call: it resolved with a value or rejected. -/
inductive FetchOutcome (α : Type) where
  | success (response : α)
  | failure
  deriving Repr, DecidableEq

/-- Synchronous prefix of `loadMoreChatMessages` up to its `await` (identical in both
controller variants): return immediately when the guard is set, `hasMore` is false,
the cursor is falsy (absent or `""`), or no conversation is selected; otherwise set
the guard and the loading flag and issue `fetchChatMessages(conversation.id, 20, cursor)`.
The second component is the issued request, `none` when the call was a no-op. -/
def loadMoreChatMessagesStart (s : SyncState) : SyncState × Option ChatFetchRequest :=
  if s.chatLoadingMoreRef = true ∨ s.chatHasMore = false ∨ strTruthy s.chatCursor = false
      ∨ s.selectedConversation = none then
    (s, none)
  else
    match s.selectedConversation with
    | none => (s, none)
    | some conv =>
      ({ s with chatLoadingMoreRef := true, chatLoadingMore := true },
       some { conversationId := conv.id, count := 20, cursor := s.chatCursor })

/-- Completion of `loadMoreChatMessages` in the inverted-list variant: on success,
append the reversed page after the existing (newest-first) items and record
`hasMore`/`nextCursor`; in both outcomes clear the loading flag and the guard
(the `finally` block). -/
def loadMoreChatMessagesFinishInverted (s : SyncState)
    (out : FetchOutcome (PaginatedResponse ChatMessage)) : SyncState :=
  match out with
  | .success r =>
    { s with
      chatMessages := s.chatMessages ++ r.data.reverse
      chatHasMore := r.hasMore
      chatCursor := r.nextCursor
      chatLoadingMore := false
      chatLoadingMoreRef := false }
  | .failure =>
    { s with chatLoadingMore := false, chatLoadingMoreRef := false }

/-- Completion of `loadMoreChatMessages` in the chronological variant: on success,
prepend the older page before the existing (oldest-first) items and record
`hasMore`/`nextCursor`; in both outcomes clear the loading flag and the guard
(the `finally` block). -/
def loadMoreChatMessagesFinishChrono (s : SyncState)
    (out : FetchOutcome (PaginatedResponse ChatMessage)) : SyncState :=
  match out with
  | .success r =>
    { s with
      chatMessages := r.data ++ s.chatMessages
      chatHasMore := r.hasMore
      chatCursor := r.nextCursor
      chatLoadingMore := false
      chatLoadingMoreRef := false }
  | .failure =>
    { s with chatLoadingMore := false, chatLoadingMoreRef := false }

/-- Synchronous prefix of `handleSendMessage` up to its `await` (identical in both
controller variants): return when the trimmed input is empty or no conversation is
selected; otherwise capture the trimmed text, clear the input optimistically and
issue `sendMessage(conversation.id, text)`. The second component is the issued
request `(conversationId, trimmed text)`, `none` when the call was a no-op. -/
def handleSendMessageStart (s : SyncState) : SyncState × Option (String × String) :=
  match s.selectedConversation with
  | none => (s, none)
  | some conv =>
    if jsTrim s.inputText = "" then (s, none)
    else ({ s with inputText := "" }, some (conv.id, jsTrim s.inputText))

/-- Completion of `handleSendMessage` in the inverted-list variant, where `text` is
the trimmed draft captured at start: on success prepend the confirmed message (the
newest-first convention); on failure restore the captured text into the input. -/
def handleSendMessageFinishInverted (s : SyncState) (text : String)
    (out : FetchOutcome ChatMessage) : SyncState :=
  match out with
  | .success m => { s with chatMessages := m :: s.chatMessages }
  | .failure => { s with inputText := text }

/-- Completion of `handleSendMessage` in the chronological variant, where `text` is
the trimmed draft captured at start: on success append the confirmed message at the
end; on failure restore the captured text into the input. -/
def handleSendMessageFinishChrono (s : SyncState) (text : String)
    (out : FetchOutcome ChatMessage) : SyncState :=
  match out with
  | .success m => { s with chatMessages := s.chatMessages ++ [m] }
  | .failure => { s with inputText := text }

/-- Repeatedly call `fetchMessagePreviews`, following the returned cursor chain and
concatenating the pages in order, until a response reports `hasMore = false`.
`fuel` bounds the number of calls; `none` means it was exhausted first. -/
def fetchMessagePreviewsChain (count : Nat) (r : PreviewRandomCtx) :
    Nat → Cache MessagePreview → Option String → Option (List MessagePreview)
  | 0, _, _ => none
  | fuel + 1, cache, cursor =>
    let step := fetchMessagePreviews count cursor cache r
    if step.1.hasMore then
      (fetchMessagePreviewsChain count r fuel step.2 step.1.nextCursor).map
        (fun rest => step.1.data ++ rest)
    else some step.1.data

/-- Repeatedly call `fetchChatMessages`, following the returned cursor chain and
prepending each fetched page in front of the accumulated result (so the
concatenation ends up oldest-to-newest), until a response reports
`hasMore = false`. `fuel` bounds the number of calls. -/
def fetchChatMessagesChain (conversationId : String) (count : Nat) (now : Int)
    (cacheId : String) :
    Nat → Cache ChatMessage → Option String → Option (List ChatMessage)
  | 0, _, _ => none
  | fuel + 1, cache, cursor =>
    let step := fetchChatMessages conversationId count cursor cache now cacheId
    if step.1.hasMore then
      (fetchChatMessagesChain conversationId count now cacheId fuel step.2 step.1.nextCursor).map
        (fun rest => rest ++ step.1.data)
    else some step.1.data

/-- The decimal digit characters of `n`, most significant first: a recursion-friendly
description of what `Nat.toDigitsCore` computes at base 10. -/
def digitsSpec (n : Nat) : List Char :=
  if n < 10 then [Nat.digitChar n]
  else digitsSpec (n / 10) ++ [Nat.digitChar (n % 10)]
decreasing_by exact Nat.div_lt_self (by omega) (by omega)

/-- A fixed choice of the random inputs of preview generation, used to instantiate
universally quantified statements on concrete runs. -/
def ctx0 : PreviewRandomCtx :=
  { now := 0, cacheId := "x", snippetAt := fun _ => "s", unreadAt := fun _ => 0 }

/-- The previews cache after one `fetchMessagePreviews 1` call on the empty cache:
it holds the `previews-1` entry with a backing sequence of 3 generated items. -/
def previewsCache1 : Cache MessagePreview :=
  (fetchMessagePreviews 1 none emptyCache ctx0).2

/-- The chat cache after one `fetchChatMessages "conv" 1` call on the empty cache:
it holds the `chat-conv` entry with a backing sequence of 3 generated messages. -/
def chatCache1 : Cache ChatMessage :=
  (fetchChatMessages "conv" 1 none emptyCache 0 "y").2

/-- A controller state with a selected conversation, a pending cursor and no
in-flight fetch, used to instantiate the controller theorems concretely. -/
def readyState : SyncState :=
  { chatLoadingMoreRef := false
    chatMessages := []
    chatLoading := false
    chatLoadingMore := false
    chatHasMore := true
    chatCursor := some "20"
    selectedConversation :=
      some { id := "conv", user := { id := "u", name := "n", avatar := "a" },
             lastMessage := "m", timestamp := 0, unreadCount := 0 }
    inputText := " hi " }

/-- A placeholder message used as the default of positional `List.getD` lookups in
statements about generated sequences (never actually selected in bounds). -/
def noMessage : ChatMessage :=
  { id := "", conversationId := "", senderId := "", text := "", timestamp := 0, isSent := false }

/-! ### Decimal round trip: `jsParseInt` recovers what `toString` printed -/

theorem toDigitsCore_acc (b : Nat) : ∀ (fuel n : Nat) (acc : List Char),
    Nat.toDigitsCore b fuel n acc = Nat.toDigitsCore b fuel n [] ++ acc := by
  intro fuel
  induction fuel with
  | zero => intro n acc; simp [Nat.toDigitsCore]
  | succ f ih =>
    intro n acc
    simp only [Nat.toDigitsCore]
    by_cases h : n / b = 0
    · simp [h]
    · simp only [h, if_false]
      rw [ih (n / b) (Nat.digitChar (n % b) :: acc), ih (n / b) [Nat.digitChar (n % b)]]
      simp

theorem div10_eq_zero_iff (n : Nat) : n / 10 = 0 ↔ n < 10 := by
  constructor
  · intro h0
    have h1 := Nat.div_add_mod n 10
    have h2 := Nat.mod_lt n (by norm_num : 0 < 10)
    omega
  · exact Nat.div_eq_of_lt

theorem toDigitsCore_eq_digitsSpec : ∀ (fuel n : Nat), n < fuel →
    Nat.toDigitsCore 10 fuel n [] = digitsSpec n := by
  intro fuel
  induction fuel with
  | zero => intro n h; omega
  | succ f ih =>
    intro n h
    rw [digitsSpec]
    simp only [Nat.toDigitsCore]
    by_cases h10 : n < 10
    · rw [if_pos (Nat.div_eq_of_lt h10), if_pos h10, Nat.mod_eq_of_lt h10]
    · have hn0 : 0 < n := by omega
      have hne : ¬ n / 10 = 0 := fun h0 => h10 ((div10_eq_zero_iff n).mp h0)
      have hlt : n / 10 < n := Nat.div_lt_self hn0 (by norm_num)
      rw [if_neg hne, if_neg h10, toDigitsCore_acc, ih (n / 10) (by omega)]

theorem digitChar_facts : ∀ m, m < 10 →
    isDigitCh (Nat.digitChar m) = true ∧ (Nat.digitChar m).toNat - 48 = m := by
  decide

theorem digitsSpec_ne_nil (n : Nat) : digitsSpec n ≠ [] := by
  rw [digitsSpec]
  by_cases h : n < 10 <;> simp [h]

theorem digitsSpec_all_digits (n : Nat) : ∀ c ∈ digitsSpec n, isDigitCh c = true := by
  induction n using Nat.strong_induction_on with
  | _ n ih =>
    rw [digitsSpec]
    by_cases h : n < 10
    · simp only [if_pos h, List.mem_singleton]
      intro c hc; subst hc; exact (digitChar_facts n h).1
    · simp only [if_neg h, List.mem_append, List.mem_singleton]
      intro c hc
      rcases hc with hc | hc
      · exact ih (n / 10) (Nat.div_lt_self (by omega) (by norm_num)) c hc
      · subst hc; exact (digitChar_facts (n % 10) (Nat.mod_lt n (by norm_num))).1

theorem digitsSpec_val (n : Nat) :
    (digitsSpec n).foldl (fun a c => a * 10 + (c.toNat - 48)) 0 = n := by
  induction n using Nat.strong_induction_on with
  | _ n ih =>
    rw [digitsSpec]
    by_cases h : n < 10
    · simp only [if_pos h, List.foldl_cons, List.foldl_nil]
      have := (digitChar_facts n h).2
      omega
    · simp only [if_neg h, List.foldl_append, List.foldl_cons, List.foldl_nil]
      rw [ih (n / 10) (Nat.div_lt_self (by omega) (by norm_num))]
      have := (digitChar_facts (n % 10) (Nat.mod_lt n (by norm_num))).2
      have hdm := Nat.div_add_mod n 10
      omega

theorem isDigitCh_not_special {c : Char} (h : isDigitCh c = true) :
    Char.isWhitespace c = false ∧ c ≠ '-' ∧ c ≠ '+' := by
  simp only [isDigitCh, Bool.and_eq_true, decide_eq_true_eq] at h
  obtain ⟨h1, h2⟩ := h
  refine ⟨?_, ?_, ?_⟩
  · by_cases hw : Char.isWhitespace c = true
    · simp only [Char.isWhitespace, Bool.or_eq_true, decide_eq_true_eq] at hw
      rcases hw with ((hw | hw) | hw) | hw <;> subst hw <;> revert h1 <;> decide
    · simpa using hw
  · intro hc; subst hc; revert h1; decide
  · intro hc; subst hc; revert h1; decide

theorem repr_data (n : Nat) : (Nat.repr n).data = digitsSpec n := by
  show (Nat.toDigitsCore 10 (n + 1) n []).asString.data = digitsSpec n
  rw [toDigitsCore_eq_digitsSpec (n + 1) n (by omega)]
  rfl

theorem jsParseInt_repr (n : Nat) : jsParseInt (Nat.repr n) = some (n : Int) := by
  simp only [jsParseInt, repr_data]
  obtain ⟨c, t, hct⟩ : ∃ c t, digitsSpec n = c :: t := by
    cases hd : digitsSpec n with
    | nil => exact absurd hd (digitsSpec_ne_nil n)
    | cons c t => exact ⟨c, t, rfl⟩
  have hall := digitsSpec_all_digits n
  have hcd : isDigitCh c = true := hall c (by rw [hct]; exact List.mem_cons_self c t)
  obtain ⟨hw, hminus, hplus⟩ := isDigitCh_not_special hcd
  have hdrop : (digitsSpec n).dropWhile Char.isWhitespace = digitsSpec n := by
    rw [hct, List.dropWhile_cons, hw]
    simp
  rw [hdrop]
  have hhead : (digitsSpec n).head? = some c := by rw [hct]; rfl
  have hsign : ¬((digitsSpec n).head? = some '-' ∨ (digitsSpec n).head? = some '+') := by
    rw [hhead]
    rintro (h | h) <;> injection h with h
    · exact hminus h
    · exact hplus h
  rw [if_neg hsign]
  have htake : (digitsSpec n).takeWhile isDigitCh = digitsSpec n :=
    List.takeWhile_eq_self_iff.mpr hall
  rw [htake]
  rw [if_neg (digitsSpec_ne_nil n)]
  have hneg : ¬(digitsSpec n).head? = some '-' := by
    rw [hhead]; intro h; injection h with h; exact hminus h
  rw [if_neg hneg, digitsSpec_val]

theorem repr_not_isEmpty (n : Nat) : (Nat.repr n).isEmpty = false := by
  by_cases h : (Nat.repr n).isEmpty = true
  · rw [String.isEmpty_iff] at h
    have hd := congrArg String.data h
    rw [repr_data] at hd
    exact absurd hd (digitsSpec_ne_nil n)
  · simpa using h

theorem toString_intCast_nat (n : Nat) : toString ((n : Nat) : Int) = Nat.repr n := rfl

theorem jsParseInt_toString_int (n : Nat) :
    jsParseInt (toString ((n : Nat) : Int)) = some (n : Int) := by
  rw [toString_intCast_nat]
  exact jsParseInt_repr n

example (a b : Nat) : max ((a:Int) - (b:Int)) 0 = ((a - b : Nat) : Int) := by omega

example (a b c : Nat) : min ((a:Int) + min (b:Int) 20) (c:Int) = ((min (a + min b 20) c : Nat) : Int) := by push_cast; ring_nf

theorem jsSlice_coe {α : Type} (l : List α) (s e : Nat) :
    jsSlice l (s : Int) (e : Int) = (l.take e).drop s := by
  unfold jsSlice jsSliceIdx
  rw [if_neg (by omega), if_neg (by omega)]
  rw [Int.toNat_natCast, Int.toNat_natCast]
  have htake : l.take (min e l.length) = l.take e := by
    rcases le_total e l.length with h | h
    · rw [min_eq_left h]
    · rw [min_eq_right h, List.take_length, List.take_of_length_le h]
  rw [htake]
  rcases le_total s l.length with h | h
  · rw [min_eq_left h]
  · rw [min_eq_right h]
    have hlen : (l.take e).length ≤ l.length := by
      simp [List.length_take]
    rw [List.drop_eq_nil_of_le hlen, List.drop_eq_nil_of_le (le_trans hlen h)]

theorem jsParseInt_ne_empty {s : String} {k : Int} (hp : jsParseInt s = some k) :
    s.isEmpty = false := by
  by_cases h : s.isEmpty = true
  · rw [String.isEmpty_iff] at h
    subst h
    simp [jsParseInt] at hp
  · simpa using h



theorem previewsPage_parsed {α : Type} (count start : Nat) (s : String) (all : List α)
    (hp : jsParseInt s = some (start : Int)) :
    fetchMessagePreviewsPage count (some s) all =
      { data := (all.take (min (start + min count 20) all.length)).drop start
        hasMore := decide (min (start + min count 20) all.length < all.length)
        nextCursor :=
          if min (start + min count 20) all.length < all.length
          then some (toString (min (start + min count 20) all.length)) else none } := by
  have ht : strTruthy (some s) = true := by
    simp [strTruthy, jsParseInt_ne_empty hp]
  simp only [fetchMessagePreviewsPage, ht, if_true, Option.getD_some, hp]
  have he : min ((start : Int) + min (count : Int) 20) (all.length : Int)
      = ((min (start + min count 20) all.length : Nat) : Int) := by
    omega
  rw [he, jsSlice_coe]
  simp only [PaginatedResponse.mk.injEq]
  refine ⟨trivial, ?_, ?_⟩
  · rw [decide_eq_decide]
    exact Nat.cast_lt
  · by_cases h : min (start + min count 20) all.length < all.length
    · rw [if_pos (Nat.cast_lt.mpr h), if_pos h]
      exact congrArg some (toString_intCast_nat _)
    · rw [if_neg (fun hh => h (Nat.cast_lt.mp hh)), if_neg h]

theorem previewsPage_none {α : Type} (count : Nat) (all : List α) :
    fetchMessagePreviewsPage count none all =
      { data := (all.take (min (0 + min count 20) all.length)).drop 0
        hasMore := decide (min (0 + min count 20) all.length < all.length)
        nextCursor :=
          if min (0 + min count 20) all.length < all.length
          then some (toString (min (0 + min count 20) all.length)) else none } := by
  simp only [fetchMessagePreviewsPage, strTruthy, Bool.false_eq_true, if_false]
  have he : min ((0 : Int) + min (count : Int) 20) (all.length : Int)
      = ((min (0 + min count 20) all.length : Nat) : Int) := by
    omega
  rw [he,
    show jsSlice all (0 : Int) ((min (0 + min count 20) all.length : Nat) : Int)
      = (all.take (min (0 + min count 20) all.length)).drop 0 from jsSlice_coe all 0 _]
  simp only [PaginatedResponse.mk.injEq]
  refine ⟨trivial, ?_, ?_⟩
  · rw [decide_eq_decide]
    exact Nat.cast_lt
  · by_cases h : min (0 + min count 20) all.length < all.length
    · rw [if_pos (Nat.cast_lt.mpr h), if_pos h]
      exact congrArg some (toString_intCast_nat _)
    · rw [if_neg (fun hh => h (Nat.cast_lt.mp hh)), if_neg h]

theorem chatPage_parsed {α : Type} (count endN : Nat) (s : String) (all : List α)
    (hp : jsParseInt s = some (endN : Int)) :
    fetchChatMessagesPage count (some s) all =
      { data := (all.take endN).drop (endN - min count 20)
        hasMore := decide (0 < endN - min count 20)
        nextCursor :=
          if 0 < endN - min count 20
          then some (toString (endN - min count 20)) else none } := by
  have ht : strTruthy (some s) = true := by
    simp [strTruthy, jsParseInt_ne_empty hp]
  simp only [fetchChatMessagesPage, ht, if_true, Option.getD_some, hp]
  have hs : max ((endN : Int) - min (count : Int) 20) 0
      = ((endN - min count 20 : Nat) : Int) := by
    omega
  rw [hs, jsSlice_coe]
  simp only [PaginatedResponse.mk.injEq]
  refine ⟨trivial, ?_, ?_⟩
  · rw [decide_eq_decide]
    exact Nat.cast_pos
  · by_cases h : 0 < endN - min count 20
    · rw [if_pos (Nat.cast_pos.mpr h), if_pos h]
      exact congrArg some (toString_intCast_nat _)
    · rw [if_neg (fun hh => h (Nat.cast_pos.mp hh)), if_neg h]

theorem chatPage_none {α : Type} (count : Nat) (all : List α) :
    fetchChatMessagesPage count none all =
      { data := (all.take all.length).drop (all.length - min count 20)
        hasMore := decide (0 < all.length - min count 20)
        nextCursor :=
          if 0 < all.length - min count 20
          then some (toString (all.length - min count 20)) else none } := by
  simp only [fetchChatMessagesPage, strTruthy, Bool.false_eq_true, if_false]
  have hs : max ((all.length : Int) - min (count : Int) 20) 0
      = ((all.length - min count 20 : Nat) : Int) := by
    omega
  rw [hs, jsSlice_coe]
  simp only [PaginatedResponse.mk.injEq]
  refine ⟨trivial, ?_, ?_⟩
  · rw [decide_eq_decide]
    exact Nat.cast_pos
  · by_cases h : 0 < all.length - min count 20
    · rw [if_pos (Nat.cast_pos.mpr h), if_pos h]
      exact congrArg some (toString_intCast_nat _)
    · rw [if_neg (fun hh => h (Nat.cast_pos.mp hh)), if_neg h]

theorem length_generateMessagePreviews (count : Nat) (r : PreviewRandomCtx) :
    (generateMessagePreviews count r).length = count := by
  simp [generateMessagePreviews]

theorem length_generateChatMessages (conversationId : String) (count : Nat) (now : Int)
    (cacheId : String) :
    (generateChatMessages conversationId count now cacheId).length = count := by
  simp [generateChatMessages]

theorem fetchMessagePreviews_hit (count : Nat) (cursor : Option String)
    (cache : Cache MessagePreview) (r : PreviewRandomCtx) (all : List MessagePreview)
    (h : cache ("previews-" ++ toString count) = some all) :
    fetchMessagePreviews count cursor cache r =
      (fetchMessagePreviewsPage count cursor all, cache) := by
  simp only [fetchMessagePreviews, h, Option.getD_some]

theorem fetchMessagePreviews_miss (count : Nat) (cursor : Option String)
    (cache : Cache MessagePreview) (r : PreviewRandomCtx)
    (h : cache ("previews-" ++ toString count) = none) :
    fetchMessagePreviews count cursor cache r =
      (fetchMessagePreviewsPage count cursor (generateMessagePreviews (count * 3) r),
       cacheSet cache ("previews-" ++ toString count) (generateMessagePreviews (count * 3) r)) := by
  simp only [fetchMessagePreviews, h, cacheSet, if_pos, Option.getD_some]

theorem fetchChatMessages_hit (conversationId : String) (count : Nat) (cursor : Option String)
    (cache : Cache ChatMessage) (now : Int) (cacheId : String) (all : List ChatMessage)
    (h : cache ("chat-" ++ conversationId) = some all) :
    fetchChatMessages conversationId count cursor cache now cacheId =
      (fetchChatMessagesPage count cursor all, cache) := by
  simp only [fetchChatMessages, h, Option.getD_some]

theorem fetchChatMessages_miss (conversationId : String) (count : Nat) (cursor : Option String)
    (cache : Cache ChatMessage) (now : Int) (cacheId : String)
    (h : cache ("chat-" ++ conversationId) = none) :
    fetchChatMessages conversationId count cursor cache now cacheId =
      (fetchChatMessagesPage count cursor (generateChatMessages conversationId (count * 3) now cacheId),
       cacheSet cache ("chat-" ++ conversationId)
         (generateChatMessages conversationId (count * 3) now cacheId)) := by
  simp only [fetchChatMessages, h, cacheSet, if_pos, Option.getD_some]

theorem previewsPage_nan {α : Type} (count : Nat) (s : String) (all : List α)
    (hs : ¬s = "") (hp : jsParseInt s = none) :
    fetchMessagePreviewsPage count (some s) all =
      { data := [], hasMore := false, nextCursor := none } := by
  have hie : s.isEmpty = false := by
    by_cases h : s.isEmpty = true
    · exact absurd ((String.isEmpty_iff s).mp h) hs
    · simpa using h
  simp only [fetchMessagePreviewsPage, strTruthy, hie, Bool.not_false, if_true,
    Option.getD_some, hp]

theorem chatPage_nan {α : Type} (count : Nat) (s : String) (all : List α)
    (hs : ¬s = "") (hp : jsParseInt s = none) :
    fetchChatMessagesPage count (some s) all =
      { data := [], hasMore := false, nextCursor := none } := by
  have hie : s.isEmpty = false := by
    by_cases h : s.isEmpty = true
    · exact absurd ((String.isEmpty_iff s).mp h) hs
    · simpa using h
  simp only [fetchChatMessagesPage, strTruthy, hie, Bool.not_false, if_true,
    Option.getD_some, hp]

theorem drop_take_append_drop {α : Type} (l : List α) (s e : Nat) (hse : s ≤ e)
    (hel : e ≤ l.length) :
    (l.take e).drop s ++ l.drop e = l.drop s := by
  conv_rhs => rw [← List.take_append_drop e l]
  rw [List.drop_append_eq_append_drop, List.length_take, min_eq_left hel,
    Nat.sub_eq_zero_of_le hse, List.drop_zero]

theorem take_eq_take_take_append {α : Type} (l : List α) (s e : Nat) (hse : s ≤ e) :
    l.take s ++ (l.take e).drop s = l.take e := by
  conv_lhs => rw [show l.take s = (l.take e).take s by rw [List.take_take, min_eq_left hse]]
  exact List.take_append_drop s (l.take e)

theorem previewsChainAux_drop (count : Nat) (r : PreviewRandomCtx)
    (all : List MessagePreview) (cache : Cache MessagePreview)
    (hcache : cache ("previews-" ++ toString count) = some all) (hcnt : 0 < count) :
    ∀ fuel start cursor, ((cursor = none ∧ start = 0) ∨ cursor = some (toString start)) →
      all.length - start < fuel →
      fetchMessagePreviewsChain count r fuel cache cursor = some (all.drop start) := by
  intro fuel
  induction fuel with
  | zero => intro start cursor hc hm; omega
  | succ f ih =>
    intro start cursor hc hm
    have hpage : fetchMessagePreviewsPage count cursor all =
        { data := (all.take (min (start + min count 20) all.length)).drop start
          hasMore := decide (min (start + min count 20) all.length < all.length)
          nextCursor :=
            if min (start + min count 20) all.length < all.length
            then some (toString (min (start + min count 20) all.length)) else none } := by
      rcases hc with ⟨rfl, rfl⟩ | rfl
      · exact previewsPage_none count all
      · exact previewsPage_parsed count start (toString start) all (jsParseInt_repr start)
    simp only [fetchMessagePreviewsChain, fetchMessagePreviews_hit count cursor cache r all hcache,
      hpage]
    by_cases hlt : min (start + min count 20) all.length < all.length
    · have hmore : decide (min (start + min count 20) all.length < all.length) = true :=
        decide_eq_true hlt
      have hend : min (start + min count 20) all.length = start + min count 20 := by omega
      simp only [hmore, if_true, if_pos hlt]
      rw [ih (start + min count 20) (some (toString (min (start + min count 20) all.length)))
        (Or.inr (by rw [hend])) (by omega)]
      simp only [Option.map_some']
      congr 1
      rw [hend]
      exact drop_take_append_drop all start (start + min count 20) (by omega) (by omega)
    · have hmore : decide (min (start + min count 20) all.length < all.length) = false := by
        simp [hlt]
      have hend : min (start + min count 20) all.length = all.length := by omega
      have hend : min (start + min count 20) all.length = all.length := by omega
      simp only [hmore, Bool.false_eq_true, if_false]
      rw [hend, List.take_length]

theorem chatChainAux_take (conversationId : String) (count : Nat) (now : Int) (cacheId : String)
    (all : List ChatMessage) (cache : Cache ChatMessage)
    (hcache : cache ("chat-" ++ conversationId) = some all) (hcnt : 0 < count) :
    ∀ fuel endN cursor, ((cursor = none ∧ endN = all.length) ∨ cursor = some (toString endN)) →
      endN < fuel →
      fetchChatMessagesChain conversationId count now cacheId fuel cache cursor =
        some (all.take endN) := by
  intro fuel
  induction fuel with
  | zero => intro endN cursor hc hm; omega
  | succ f ih =>
    intro endN cursor hc hm
    have hpage : fetchChatMessagesPage count cursor all =
        { data := (all.take endN).drop (endN - min count 20)
          hasMore := decide (0 < endN - min count 20)
          nextCursor :=
            if 0 < endN - min count 20
            then some (toString (endN - min count 20)) else none } := by
      rcases hc with ⟨rfl, rfl⟩ | rfl
      · exact chatPage_none count all
      · exact chatPage_parsed count endN (toString endN) all (jsParseInt_repr endN)
    simp only [fetchChatMessagesChain,
      fetchChatMessages_hit conversationId count cursor cache now cacheId all hcache, hpage]
    by_cases hpos : 0 < endN - min count 20
    · have hmore : decide (0 < endN - min count 20) = true := decide_eq_true hpos
      simp only [hmore, if_true, if_pos hpos]
      rw [ih (endN - min count 20) (some (toString (endN - min count 20)))
        (Or.inr rfl) (by omega)]
      simp only [Option.map_some']
      congr 1
      exact take_eq_take_take_append all (endN - min count 20) endN (by omega)
    · have hmore : decide (0 < endN - min count 20) = false := by simp [hpos]
      have hz : endN - min count 20 = 0 := by omega
      simp only [hmore, Bool.false_eq_true, if_false]
      rw [hz, List.drop_zero]

theorem previewsChain_empty_eq (count : Nat) (r : PreviewRandomCtx) (fuel : Nat) :
    fetchMessagePreviewsChain count r (fuel + 1) emptyCache none =
      fetchMessagePreviewsChain count r (fuel + 1)
        (cacheSet emptyCache ("previews-" ++ toString count)
          (generateMessagePreviews (count * 3) r)) none := by
  simp only [fetchMessagePreviewsChain,
    fetchMessagePreviews_miss count none emptyCache r rfl,
    fetchMessagePreviews_hit count none
      (cacheSet emptyCache ("previews-" ++ toString count)
        (generateMessagePreviews (count * 3) r)) r
      (generateMessagePreviews (count * 3) r) (by simp [cacheSet])]

theorem chatChain_empty_eq (conversationId : String) (count : Nat) (now : Int)
    (cacheId : String) (fuel : Nat) :
    fetchChatMessagesChain conversationId count now cacheId (fuel + 1) emptyCache none =
      fetchChatMessagesChain conversationId count now cacheId (fuel + 1)
        (cacheSet emptyCache ("chat-" ++ conversationId)
          (generateChatMessages conversationId (count * 3) now cacheId)) none := by
  simp only [fetchChatMessagesChain,
    fetchChatMessages_miss conversationId count none emptyCache now cacheId rfl,
    fetchChatMessages_hit conversationId count none
      (cacheSet emptyCache ("chat-" ++ conversationId)
        (generateChatMessages conversationId (count * 3) now cacheId)) now cacheId
      (generateChatMessages conversationId (count * 3) now cacheId) (by simp [cacheSet])]

theorem previews_chain_covers (count : Nat) (r : PreviewRandomCtx) :
    fetchMessagePreviewsChain count r (3 * count + 1) emptyCache none =
      some (generateMessagePreviews (count * 3) r) := by
  rcases Nat.eq_zero_or_pos count with rfl | hcnt
  · have hgen : generateMessagePreviews (0 * 3) r = [] := by
      have h1 : (generateMessagePreviews (0 * 3) r).length = 0 := by
        rw [length_generateMessagePreviews]
      exact List.length_eq_zero.mp h1
    simp only [Nat.mul_zero, Nat.zero_add, fetchMessagePreviewsChain,
      fetchMessagePreviews_miss 0 none emptyCache r rfl, hgen, previewsPage_none]
    simp
  · rw [show 3 * count + 1 = 3 * count + 1 from rfl, previewsChain_empty_eq]
    have hkey : (cacheSet emptyCache ("previews-" ++ toString count)
        (generateMessagePreviews (count * 3) r)) ("previews-" ++ toString count) =
        some (generateMessagePreviews (count * 3) r) := by simp [cacheSet]
    have h := previewsChainAux_drop count r (generateMessagePreviews (count * 3) r)
      (cacheSet emptyCache ("previews-" ++ toString count)
        (generateMessagePreviews (count * 3) r)) hkey hcnt
      (3 * count + 1) 0 none (Or.inl ⟨rfl, rfl⟩)
      (by rw [length_generateMessagePreviews]; omega)
    rw [List.drop_zero] at h
    exact h

theorem chat_chain_covers (conversationId : String) (count : Nat) (now : Int)
    (cacheId : String) :
    fetchChatMessagesChain conversationId count now cacheId (3 * count + 1) emptyCache none =
      some (generateChatMessages conversationId (count * 3) now cacheId) := by
  rcases Nat.eq_zero_or_pos count with rfl | hcnt
  · have hgen : generateChatMessages conversationId (0 * 3) now cacheId = [] := by
      have h1 : (generateChatMessages conversationId (0 * 3) now cacheId).length = 0 := by
        rw [length_generateChatMessages]
      exact List.length_eq_zero.mp h1
    simp only [Nat.mul_zero, Nat.zero_add, fetchChatMessagesChain,
      fetchChatMessages_miss conversationId 0 none emptyCache now cacheId rfl, hgen,
      chatPage_none]
    simp
  · rw [chatChain_empty_eq]
    have hkey : (cacheSet emptyCache ("chat-" ++ conversationId)
        (generateChatMessages conversationId (count * 3) now cacheId)) ("chat-" ++ conversationId) =
        some (generateChatMessages conversationId (count * 3) now cacheId) := by simp [cacheSet]
    have h := chatChainAux_take conversationId count now cacheId
      (generateChatMessages conversationId (count * 3) now cacheId)
      (cacheSet emptyCache ("chat-" ++ conversationId)
        (generateChatMessages conversationId (count * 3) now cacheId)) hkey hcnt
      (3 * count + 1) (generateChatMessages conversationId (count * 3) now cacheId).length none
      (Or.inl ⟨rfl, rfl⟩)
      (by rw [length_generateChatMessages]; omega)
    rw [List.take_length] at h
    exact h

/-- C1: forward pagination serves the window `[start, min(start + min(count,20), L))`
of the cached backing sequence, with `hasMore` iff the window end is strictly below
`L` and `nextCursor` the decimal end index exactly when `hasMore`; and from an empty
cache, three chained `fetchMessagePreviews 20` calls yield pages of length 20 with
cursors "20" then "40", the third reporting `hasMore = false`, no cursor. -/
theorem fetchMessagePreviews_forward_window :
    (∀ (count start : Nat) (cursor : Option String) (cache : Cache MessagePreview)
        (r : PreviewRandomCtx) (all : List MessagePreview),
      cache ("previews-" ++ toString count) = some all →
      ((cursor = none ∧ start = 0) ∨
        (∃ s, cursor = some s ∧ jsParseInt s = some (start : Int))) →
      (fetchMessagePreviews count cursor cache r).1.data =
          (all.take (min (start + min count 20) all.length)).drop start ∧
      ((fetchMessagePreviews count cursor cache r).1.hasMore = true ↔
          min (start + min count 20) all.length < all.length) ∧
      (fetchMessagePreviews count cursor cache r).1.nextCursor =
          (if min (start + min count 20) all.length < all.length
           then some (toString (min (start + min count 20) all.length)) else none)) ∧
    (∀ r : PreviewRandomCtx,
      (fetchMessagePreviews 20 none emptyCache r).1.data.length = 20 ∧
      (fetchMessagePreviews 20 none emptyCache r).1.hasMore = true ∧
      (fetchMessagePreviews 20 none emptyCache r).1.nextCursor = some "20" ∧
      (fetchMessagePreviews 20 (some "20") (fetchMessagePreviews 20 none emptyCache r).2 r).1.data.length = 20 ∧
      (fetchMessagePreviews 20 (some "20") (fetchMessagePreviews 20 none emptyCache r).2 r).1.hasMore = true ∧
      (fetchMessagePreviews 20 (some "20") (fetchMessagePreviews 20 none emptyCache r).2 r).1.nextCursor = some "40" ∧
      (fetchMessagePreviews 20 (some "40") (fetchMessagePreviews 20 (some "20") (fetchMessagePreviews 20 none emptyCache r).2 r).2 r).1.data.length = 20 ∧
      (fetchMessagePreviews 20 (some "40") (fetchMessagePreviews 20 (some "20") (fetchMessagePreviews 20 none emptyCache r).2 r).2 r).1.hasMore = false ∧
      (fetchMessagePreviews 20 (some "40") (fetchMessagePreviews 20 (some "20") (fetchMessagePreviews 20 none emptyCache r).2 r).2 r).1.nextCursor = none) := by
  constructor
  · intro count start cursor cache r all hcache hcur
    rw [fetchMessagePreviews_hit count cursor cache r all hcache]
    have hpage : fetchMessagePreviewsPage count cursor all =
        { data := (all.take (min (start + min count 20) all.length)).drop start
          hasMore := decide (min (start + min count 20) all.length < all.length)
          nextCursor :=
            if min (start + min count 20) all.length < all.length
            then some (toString (min (start + min count 20) all.length)) else none } := by
      rcases hcur with ⟨rfl, rfl⟩ | ⟨s, rfl, hs⟩
      · exact previewsPage_none count all
      · exact previewsPage_parsed count start s all hs
    rw [hpage]
    exact ⟨rfl, by simp, rfl⟩
  · intro r
    have hmiss := fetchMessagePreviews_miss 20 none emptyCache r rfl
    have hlen : (generateMessagePreviews (20 * 3) r).length = 60 :=
      length_generateMessagePreviews (20 * 3) r
    have hcc : (cacheSet emptyCache ("previews-" ++ toString 20)
        (generateMessagePreviews (20 * 3) r)) ("previews-" ++ toString 20) =
        some (generateMessagePreviews (20 * 3) r) := by simp [cacheSet]
    have hhit1 := fetchMessagePreviews_hit 20 (some "20")
      (cacheSet emptyCache ("previews-" ++ toString 20) (generateMessagePreviews (20 * 3) r)) r
      (generateMessagePreviews (20 * 3) r) hcc
    have hhit2 := fetchMessagePreviews_hit 20 (some "40")
      (cacheSet emptyCache ("previews-" ++ toString 20) (generateMessagePreviews (20 * 3) r)) r
      (generateMessagePreviews (20 * 3) r) hcc
    rw [hmiss, hhit1, hhit2,
      previewsPage_none 20 (generateMessagePreviews (20 * 3) r),
      previewsPage_parsed 20 20 "20" (generateMessagePreviews (20 * 3) r) (by decide),
      previewsPage_parsed 20 40 "40" (generateMessagePreviews (20 * 3) r) (by decide)]
    simp only [hlen]
    norm_num [List.length_drop, List.length_take, hlen]
    exact ⟨rfl, rfl⟩

theorem fetchMessagePreviews_forward_window_witness :
    previewsCache1 ("previews-" ++ toString 1) = some (generateMessagePreviews 3 ctx0) ∧
    (fetchMessagePreviews 1 (some "2") previewsCache1 ctx0).1.nextCursor = none ∧
    (fetchMessagePreviews 20 none emptyCache ctx0).1.nextCursor = some "20" := by
  have hc : previewsCache1 ("previews-" ++ toString 1) = some (generateMessagePreviews 3 ctx0) := by
    decide
  refine ⟨hc, ?_, (fetchMessagePreviews_forward_window.2 ctx0).2.2.1⟩
  have h := (fetchMessagePreviews_forward_window.1 1 2 (some "2") previewsCache1 ctx0
    (generateMessagePreviews 3 ctx0) hc (Or.inr ⟨"2", rfl, by decide⟩)).2.2
  rw [h]
  norm_num [length_generateMessagePreviews]

/-- C2: backward pagination serves the window `[end - min(count,20), end)` (the lower
bound clamped at 0 via truncated subtraction) of the cached backing sequence in its
original oldest-first order, where `end` is the parsed cursor, or `L` when the cursor
is absent; `hasMore` holds iff the window start is positive and `nextCursor` is the
decimal start index exactly when `hasMore`. -/
theorem fetchChatMessages_backward_window :
    ∀ (conversationId : String) (count endN : Nat) (cursor : Option String)
      (cache : Cache ChatMessage) (now : Int) (cacheId : String) (all : List ChatMessage),
      cache ("chat-" ++ conversationId) = some all →
      ((cursor = none ∧ endN = all.length) ∨
        (∃ s, cursor = some s ∧ jsParseInt s = some (endN : Int))) →
      (fetchChatMessages conversationId count cursor cache now cacheId).1.data =
          (all.take endN).drop (endN - min count 20) ∧
      ((fetchChatMessages conversationId count cursor cache now cacheId).1.hasMore = true ↔
          0 < endN - min count 20) ∧
      (fetchChatMessages conversationId count cursor cache now cacheId).1.nextCursor =
          (if 0 < endN - min count 20
           then some (toString (endN - min count 20)) else none) := by
  intro conversationId count endN cursor cache now cacheId all hcache hcur
  rw [fetchChatMessages_hit conversationId count cursor cache now cacheId all hcache]
  have hpage : fetchChatMessagesPage count cursor all =
      { data := (all.take endN).drop (endN - min count 20)
        hasMore := decide (0 < endN - min count 20)
        nextCursor :=
          if 0 < endN - min count 20
          then some (toString (endN - min count 20)) else none } := by
    rcases hcur with ⟨rfl, rfl⟩ | ⟨s, rfl, hs⟩
    · exact chatPage_none count all
    · exact chatPage_parsed count endN s all hs
  rw [hpage]
  exact ⟨rfl, by simp, rfl⟩

theorem fetchChatMessages_backward_window_witness :
    chatCache1 ("chat-" ++ "conv") = some (generateChatMessages "conv" 3 0 "y") ∧
    (fetchChatMessages "conv" 1 (some "2") chatCache1 0 "y").1.nextCursor = some "1" := by
  have hc : chatCache1 ("chat-" ++ "conv") = some (generateChatMessages "conv" 3 0 "y") := by
    decide
  refine ⟨hc, ?_⟩
  have h := (fetchChatMessages_backward_window "conv" 1 2 (some "2") chatCache1 0 "y"
    (generateChatMessages "conv" 3 0 "y") hc (Or.inr ⟨"2", rfl, by decide⟩)).2.2
  rw [h]
  norm_num
  rfl

/-- C3: from the empty cache, following the forward cursor chain of
`fetchMessagePreviews` until `hasMore` is false concatenates the pages, in order,
to exactly the full generated backing sequence; and following the backward cursor
chain of `fetchChatMessages`, prepending each fetched page, reconstructs exactly
the full generated backing sequence oldest-to-newest. -/
theorem pagination_chain_coverage :
    (∀ (count : Nat) (r : PreviewRandomCtx),
      fetchMessagePreviewsChain count r (3 * count + 1) emptyCache none =
        some (generateMessagePreviews (count * 3) r)) ∧
    (∀ (conversationId : String) (count : Nat) (now : Int) (cacheId : String),
      fetchChatMessagesChain conversationId count now cacheId (3 * count + 1) emptyCache none =
        some (generateChatMessages conversationId (count * 3) now cacheId)) :=
  ⟨previews_chain_covers, chat_chain_covers⟩

/-- C4: the first fetch for a key creates the cache entry once, with a backing
sequence of exactly three times the requested page size, touching no other key; a
call that finds the entry serves its page from that stored sequence and leaves the
entire cache unchanged. -/
theorem cache_entry_created_once :
    (∀ (count : Nat) (cursor : Option String) (cache : Cache MessagePreview)
        (r : PreviewRandomCtx),
      cache ("previews-" ++ toString count) = none →
      (fetchMessagePreviews count cursor cache r).2 ("previews-" ++ toString count) =
          some (generateMessagePreviews (count * 3) r) ∧
      (generateMessagePreviews (count * 3) r).length = 3 * count ∧
      (∀ k, k ≠ "previews-" ++ toString count →
        (fetchMessagePreviews count cursor cache r).2 k = cache k)) ∧
    (∀ (count : Nat) (cursor : Option String) (cache : Cache MessagePreview)
        (r : PreviewRandomCtx) (all : List MessagePreview),
      cache ("previews-" ++ toString count) = some all →
      fetchMessagePreviews count cursor cache r =
        (fetchMessagePreviewsPage count cursor all, cache)) ∧
    (∀ (conversationId : String) (count : Nat) (cursor : Option String)
        (cache : Cache ChatMessage) (now : Int) (cacheId : String),
      cache ("chat-" ++ conversationId) = none →
      (fetchChatMessages conversationId count cursor cache now cacheId).2
          ("chat-" ++ conversationId) =
          some (generateChatMessages conversationId (count * 3) now cacheId) ∧
      (generateChatMessages conversationId (count * 3) now cacheId).length = 3 * count ∧
      (∀ k, k ≠ "chat-" ++ conversationId →
        (fetchChatMessages conversationId count cursor cache now cacheId).2 k = cache k)) ∧
    (∀ (conversationId : String) (count : Nat) (cursor : Option String)
        (cache : Cache ChatMessage) (now : Int) (cacheId : String) (all : List ChatMessage),
      cache ("chat-" ++ conversationId) = some all →
      fetchChatMessages conversationId count cursor cache now cacheId =
        (fetchChatMessagesPage count cursor all, cache)) := by
  refine ⟨?_, ?_, ?_, ?_⟩
  · intro count cursor cache r h
    rw [fetchMessagePreviews_miss count cursor cache r h]
    refine ⟨by simp [cacheSet], ?_, ?_⟩
    · rw [length_generateMessagePreviews]; omega
    · intro k hk
      simp [cacheSet, hk]
  · intro count cursor cache r all h
    exact fetchMessagePreviews_hit count cursor cache r all h
  · intro conversationId count cursor cache now cacheId h
    rw [fetchChatMessages_miss conversationId count cursor cache now cacheId h]
    refine ⟨by simp [cacheSet], ?_, ?_⟩
    · rw [length_generateChatMessages]; omega
    · intro k hk
      simp [cacheSet, hk]
  · intro conversationId count cursor cache now cacheId all h
    exact fetchChatMessages_hit conversationId count cursor cache now cacheId all h

theorem cache_entry_created_once_witness :
    (fetchMessagePreviews 1 none emptyCache ctx0).2 ("previews-" ++ toString 1) =
        some (generateMessagePreviews (1 * 3) ctx0) ∧
    fetchChatMessages "conv" 1 (some "2") chatCache1 0 "y" =
      (fetchChatMessagesPage 1 (some "2") (generateChatMessages "conv" 3 0 "y"), chatCache1) := by
  constructor
  · exact ((cache_entry_created_once.1 1 none emptyCache ctx0) rfl).1
  · exact cache_entry_created_once.2.2.2 "conv" 1 (some "2") chatCache1 0 "y"
      (generateChatMessages "conv" 3 0 "y") (by decide)

/-- C5: `loadMoreChatMessages` is a no-op (no underlying fetch) when the in-flight
guard is set, `hasMore` is false, the cursor is absent, or no conversation is
selected; a successful start sets the guard, so a second invocation before the
first completes issues no second fetch (exactly one underlying call); and
completion clears the guard in both variants whether the fetch succeeded or
failed. -/
theorem loadOlder_single_flight :
    (∀ s : SyncState,
      s.chatLoadingMoreRef = true ∨ s.chatHasMore = false ∨ s.chatCursor = none ∨
        s.selectedConversation = none →
      loadMoreChatMessagesStart s = (s, none)) ∧
    (∀ (s s1 : SyncState) (req : ChatFetchRequest),
      loadMoreChatMessagesStart s = (s1, some req) →
      (loadMoreChatMessagesStart s1).2 = none) ∧
    (∀ (s : SyncState) (out : FetchOutcome (PaginatedResponse ChatMessage)),
      (loadMoreChatMessagesFinishInverted s out).chatLoadingMoreRef = false ∧
      (loadMoreChatMessagesFinishChrono s out).chatLoadingMoreRef = false) := by
  refine ⟨?_, ?_, ?_⟩
  · intro s h
    have hcond : s.chatLoadingMoreRef = true ∨ s.chatHasMore = false ∨
        strTruthy s.chatCursor = false ∨ s.selectedConversation = none := by
      rcases h with h | h | h | h
      · exact Or.inl h
      · exact Or.inr (Or.inl h)
      · exact Or.inr (Or.inr (Or.inl (by rw [h]; rfl)))
      · exact Or.inr (Or.inr (Or.inr h))
    simp only [loadMoreChatMessagesStart, if_pos hcond]
  · intro s s1 req h
    by_cases hcond : s.chatLoadingMoreRef = true ∨ s.chatHasMore = false ∨
        strTruthy s.chatCursor = false ∨ s.selectedConversation = none
    · simp only [loadMoreChatMessagesStart, if_pos hcond] at h
      exact absurd (congrArg Prod.snd h) (by simp)
    · cases hconv : s.selectedConversation with
      | none => exact absurd (Or.inr (Or.inr (Or.inr hconv))) hcond
      | some conv =>
        rw [hconv] at hcond
        simp only [loadMoreChatMessagesStart, hconv, if_neg hcond, Prod.mk.injEq] at h
        obtain ⟨h1, h2⟩ := h
        subst h1
        simp [loadMoreChatMessagesStart]
  · intro s out
    cases out <;> exact ⟨rfl, rfl⟩

theorem loadOlder_single_flight_witness :
    loadMoreChatMessagesStart { readyState with chatCursor := none } =
      ({ readyState with chatCursor := none }, none) ∧
    (loadMoreChatMessagesStart (loadMoreChatMessagesStart readyState).1).2 = none ∧
    (loadMoreChatMessagesFinishInverted readyState FetchOutcome.failure).chatLoadingMoreRef
      = false := by
  refine ⟨?_, ?_, ?_⟩
  · exact loadOlder_single_flight.1 { readyState with chatCursor := none }
      (Or.inr (Or.inr (Or.inl rfl)))
  · exact loadOlder_single_flight.2.1 readyState (loadMoreChatMessagesStart readyState).1
      { conversationId := "conv", count := 20, cursor := some "20" } (by decide)
  · exact (loadOlder_single_flight.2.2 readyState FetchOutcome.failure).1

theorem send_failure_restore_counterexample :
    readyState.inputText = " hi " ∧
    jsTrim readyState.inputText ≠ "" ∧
    readyState.selectedConversation ≠ none ∧
    (handleSendMessageStart readyState).2 = some ("conv", jsTrim readyState.inputText) ∧
    (handleSendMessageFinishInverted (handleSendMessageStart readyState).1
        (jsTrim readyState.inputText) FetchOutcome.failure).inputText ≠ " hi " ∧
    (handleSendMessageFinishChrono (handleSendMessageStart readyState).1
        (jsTrim readyState.inputText) FetchOutcome.failure).inputText ≠ " hi " := by
  decide

/-- C6 (amended): for a selected conversation and an input whose trim is non-blank,
the send handler issues the trimmed text, clears the input, and when the underlying
`sendMessage` rejects, both controller variants restore the *trimmed* draft (not the
original untrimmed text) and leave `chatMessages` unchanged in length and content. -/
theorem send_failure_restores_trimmed :
    ∀ (s : SyncState) (conv : MessagePreview),
      s.selectedConversation = some conv →
      jsTrim s.inputText ≠ "" →
      (handleSendMessageStart s).2 = some (conv.id, jsTrim s.inputText) ∧
      (handleSendMessageStart s).1.inputText = "" ∧
      (handleSendMessageFinishInverted (handleSendMessageStart s).1 (jsTrim s.inputText)
          FetchOutcome.failure).inputText = jsTrim s.inputText ∧
      (handleSendMessageFinishInverted (handleSendMessageStart s).1 (jsTrim s.inputText)
          FetchOutcome.failure).chatMessages = s.chatMessages ∧
      (handleSendMessageFinishChrono (handleSendMessageStart s).1 (jsTrim s.inputText)
          FetchOutcome.failure).inputText = jsTrim s.inputText ∧
      (handleSendMessageFinishChrono (handleSendMessageStart s).1 (jsTrim s.inputText)
          FetchOutcome.failure).chatMessages = s.chatMessages := by
  intro s conv hconv hne
  simp only [handleSendMessageStart, hconv, if_neg hne]
  refine ⟨?_, ?_, ?_, ?_, ?_, ?_⟩ <;> (first | exact trivial | rfl)

theorem send_failure_restores_trimmed_witness :
    (handleSendMessageStart readyState).2 = some ("conv", jsTrim readyState.inputText) ∧
    (handleSendMessageFinishChrono (handleSendMessageStart readyState).1
        (jsTrim readyState.inputText) FetchOutcome.failure).chatMessages =
      readyState.chatMessages := by
  have h := send_failure_restores_trimmed readyState
    { id := "conv", user := { id := "u", name := "n", avatar := "a" },
      lastMessage := "m", timestamp := 0, unreadCount := 0 } rfl (by decide)
  exact ⟨h.1, h.2.2.2.2.2⟩

theorem refeed_last_cursor_counterexample :
    (fetchMessagePreviews 1 none previewsCache1 ctx0).1.nextCursor = some "1" ∧
    (fetchMessagePreviews 1 (some "1") previewsCache1 ctx0).1.nextCursor = some "2" ∧
    (fetchMessagePreviews 1 (some "1") previewsCache1 ctx0).2 = previewsCache1 ∧
    (fetchMessagePreviews 1 (some "2") previewsCache1 ctx0).1.hasMore = false ∧
    (fetchMessagePreviews 1 (some "2") previewsCache1 ctx0).1.nextCursor = none ∧
    (fetchMessagePreviews 1 (some "2") previewsCache1 ctx0).1.data.length = 1 := by
  refine ⟨by decide, by decide, ?_, by decide, by decide, by decide⟩
  rw [fetchMessagePreviews_hit 1 (some "1") previewsCache1 ctx0
    (generateMessagePreviews 3 ctx0) (by decide)]

/-- C7 (amended): re-feeding the last valid cursor of a completed chain yields
`hasMore = false` with no `nextCursor`, but the data is the final page of the chain
over again (the tail from that offset forward, the head up to it backward), which
is nonempty whenever that final page was. -/
theorem refeed_last_cursor_final_page :
    (∀ (count start : Nat) (s : String) (cache : Cache MessagePreview)
        (r : PreviewRandomCtx) (all : List MessagePreview),
      cache ("previews-" ++ toString count) = some all →
      jsParseInt s = some (start : Int) →
      all.length ≤ start + min count 20 →
      (fetchMessagePreviews count (some s) cache r).1.hasMore = false ∧
      (fetchMessagePreviews count (some s) cache r).1.nextCursor = none ∧
      (fetchMessagePreviews count (some s) cache r).1.data = all.drop start) ∧
    (∀ (conversationId : String) (count endN : Nat) (s : String)
        (cache : Cache ChatMessage) (now : Int) (cacheId : String) (all : List ChatMessage),
      cache ("chat-" ++ conversationId) = some all →
      jsParseInt s = some (endN : Int) →
      endN ≤ min count 20 →
      (fetchChatMessages conversationId count (some s) cache now cacheId).1.hasMore = false ∧
      (fetchChatMessages conversationId count (some s) cache now cacheId).1.nextCursor = none ∧
      (fetchChatMessages conversationId count (some s) cache now cacheId).1.data =
        all.take endN) := by
  constructor
  · intro count start s cache r all hcache hs hfin
    rw [fetchMessagePreviews_hit count (some s) cache r all hcache,
      previewsPage_parsed count start s all hs]
    have hmin : min (start + min count 20) all.length = all.length := by omega
    rw [hmin]
    refine ⟨by simp, by rw [if_neg (lt_irrefl all.length)], ?_⟩
    rw [List.take_length]
  · intro conversationId count endN s cache now cacheId all hcache hs hfin
    rw [fetchChatMessages_hit conversationId count (some s) cache now cacheId all hcache,
      chatPage_parsed count endN s all hs]
    have hz : endN - min count 20 = 0 := by omega
    rw [hz]
    refine ⟨by simp, by rw [if_neg (lt_irrefl 0)], ?_⟩
    rw [List.drop_zero]

theorem refeed_last_cursor_final_page_witness :
    (fetchMessagePreviews 1 (some "2") previewsCache1 ctx0).1.hasMore = false ∧
    (fetchChatMessages "conv" 1 (some "1") chatCache1 0 "y").1.data =
      (generateChatMessages "conv" 3 0 "y").take 1 := by
  constructor
  · exact ((refeed_last_cursor_final_page.1 1 2 "2" previewsCache1 ctx0
      (generateMessagePreviews 3 ctx0) (by decide) (by decide)) (by decide)).1
  · exact ((refeed_last_cursor_final_page.2 "conv" 1 1 "1" chatCache1 0 "y"
      (generateChatMessages "conv" 3 0 "y") (by decide) (by decide)) (by decide)).2.2

theorem generateChatMessages_getD (conversationId : String) (count : Nat) (now : Int)
    (cacheId : String) (i : Nat) (d : ChatMessage) (hi : i < count) :
    (generateChatMessages conversationId count now cacheId).getD i d =
      { id := "msg-" ++ cacheId ++ "-" ++ toString i
        conversationId := conversationId
        senderId := if i % 2 = 0 then "current-user" else "other-user"
        text := CHAT_MESSAGES.getD (i % CHAT_MESSAGES.length) ""
        timestamp := now - ((count : Int) - 1 - (i : Int)) * 1000 * 60 * 2
        isSent := decide (i % 2 = 0) } := by
  have hlen : i < (generateChatMessages conversationId count now cacheId).length := by
    rw [length_generateChatMessages]; exact hi
  rw [List.getD_eq_getElem _ d hlen]
  simp [generateChatMessages]

/-- C8: `sendMessage` returns the newly built outgoing message (fresh id parameter,
`senderId = "current-user"`, `isSent = true`, the given conversation id); it appends
that message at the end of the `chat-{conversationId}` entry when it exists, leaves
the cache entirely untouched when it does not, and never modifies any other key. -/
theorem sendMessage_append_frame :
    ∀ (conversationId text : String) (cache : Cache ChatMessage) (newId : String) (now : Int),
      (sendMessage conversationId text cache newId now).1 =
        { id := newId, conversationId := conversationId, senderId := "current-user",
          text := text, timestamp := now, isSent := true } ∧
      (∀ old, cache ("chat-" ++ conversationId) = some old →
        (sendMessage conversationId text cache newId now).2 ("chat-" ++ conversationId) =
          some (old ++ [(sendMessage conversationId text cache newId now).1])) ∧
      (cache ("chat-" ++ conversationId) = none →
        (sendMessage conversationId text cache newId now).2 = cache) ∧
      (∀ k, k ≠ "chat-" ++ conversationId →
        (sendMessage conversationId text cache newId now).2 k = cache k) := by
  intro conversationId text cache newId now
  refine ⟨rfl, ?_, ?_, ?_⟩
  · intro old h
    simp [sendMessage, h, cacheSet]
  · intro h
    simp [sendMessage, h]
  · intro k hk
    cases hcc : cache ("chat-" ++ conversationId) with
    | none => simp [sendMessage, hcc]
    | some old => simp [sendMessage, hcc, cacheSet, hk]

theorem sendMessage_append_frame_witness :
    (sendMessage "conv" "yo" chatCache1 "id9" 5).2 ("chat-" ++ "conv") =
      some ((generateChatMessages "conv" 3 0 "y") ++
        [(sendMessage "conv" "yo" chatCache1 "id9" 5).1]) ∧
    (sendMessage "conv" "yo" chatCache1 "id9" 5).2 "previews-1" = chatCache1 "previews-1" := by
  constructor
  · exact (sendMessage_append_frame "conv" "yo" chatCache1 "id9" 5).2.1
      (generateChatMessages "conv" 3 0 "y") (by decide)
  · exact (sendMessage_append_frame "conv" "yo" chatCache1 "id9" 5).2.2.2 "previews-1" (by decide)

/-- C9: `generateChatMessages` always yields exactly `count` messages; consecutive
timestamps differ by exactly the 2-minute step (120000 ms, so they are monotone in
generation order), every even-indexed message is outgoing (`isSent`, sender
`current-user`) and every odd-indexed one is incoming (sender `other-user`). -/
theorem generateChatMessages_shape :
    ∀ (conversationId : String) (count : Nat) (now : Int) (cacheId : String),
      (generateChatMessages conversationId count now cacheId).length = count ∧
      (∀ i, i + 1 < count →
        ((generateChatMessages conversationId count now cacheId).getD (i + 1) noMessage).timestamp
          = ((generateChatMessages conversationId count now cacheId).getD i noMessage).timestamp
            + 120000) ∧
      (∀ i, i < count → i % 2 = 0 →
        ((generateChatMessages conversationId count now cacheId).getD i noMessage).isSent = true ∧
        ((generateChatMessages conversationId count now cacheId).getD i noMessage).senderId =
          "current-user") ∧
      (∀ i, i < count → i % 2 = 1 →
        ((generateChatMessages conversationId count now cacheId).getD i noMessage).isSent = false ∧
        ((generateChatMessages conversationId count now cacheId).getD i noMessage).senderId =
          "other-user") := by
  intro conversationId count now cacheId
  refine ⟨length_generateChatMessages conversationId count now cacheId, ?_, ?_, ?_⟩
  · intro i hi
    rw [generateChatMessages_getD conversationId count now cacheId (i + 1) noMessage hi,
      generateChatMessages_getD conversationId count now cacheId i noMessage (by omega)]
    push_cast
    ring
  · intro i hi hpar
    rw [generateChatMessages_getD conversationId count now cacheId i noMessage hi]
    simp [hpar]
  · intro i hi hpar
    have hne : ¬ i % 2 = 0 := by omega
    rw [generateChatMessages_getD conversationId count now cacheId i noMessage hi]
    simp [hne]

theorem generateChatMessages_shape_witness :
    (generateChatMessages "c" 3 0 "z").length = 3 ∧
    ((generateChatMessages "c" 3 0 "z").getD 1 noMessage).timestamp =
      ((generateChatMessages "c" 3 0 "z").getD 0 noMessage).timestamp + 120000 ∧
    ((generateChatMessages "c" 3 0 "z").getD 2 noMessage).isSent = true ∧
    ((generateChatMessages "c" 3 0 "z").getD 1 noMessage).senderId = "other-user" := by
  refine ⟨(generateChatMessages_shape "c" 3 0 "z").1, ?_, ?_, ?_⟩
  · exact (generateChatMessages_shape "c" 3 0 "z").2.1 0 (by decide)
  · exact ((generateChatMessages_shape "c" 3 0 "z").2.2.1 2 (by decide) (by decide)).1
  · exact ((generateChatMessages_shape "c" 3 0 "z").2.2.2 1 (by decide) (by decide)).2

theorem nan_cursor_counterexample :
    jsParseInt "" = none ∧
    (fetchMessagePreviews 1 (some "") previewsCache1 ctx0).1.data.length = 1 ∧
    (fetchMessagePreviews 1 (some "") previewsCache1 ctx0).1.hasMore = true := by
  decide

/-- C10 (amended): for every nonempty cursor string on which `parseInt` yields NaN,
both fetch operations return normally with empty data, `hasMore = false` and no
`nextCursor` (the empty string is excluded: it is falsy in JavaScript, so the code
treats it like an absent cursor and serves a full first page). -/
theorem nan_cursor_empty_page :
    ∀ s : String, s ≠ "" → jsParseInt s = none →
      (∀ (count : Nat) (cache : Cache MessagePreview) (r : PreviewRandomCtx),
        (fetchMessagePreviews count (some s) cache r).1 =
          { data := [], hasMore := false, nextCursor := none }) ∧
      (∀ (conversationId : String) (count : Nat) (cache : Cache ChatMessage)
          (now : Int) (cacheId : String),
        (fetchChatMessages conversationId count (some s) cache now cacheId).1 =
          { data := [], hasMore := false, nextCursor := none }) := by
  intro s hs hp
  constructor
  · intro count cache r
    cases hcc : cache ("previews-" ++ toString count) with
    | none =>
      rw [fetchMessagePreviews_miss count (some s) cache r hcc]
      exact previewsPage_nan count s _ hs hp
    | some all =>
      rw [fetchMessagePreviews_hit count (some s) cache r all hcc]
      exact previewsPage_nan count s all hs hp
  · intro conversationId count cache now cacheId
    cases hcc : cache ("chat-" ++ conversationId) with
    | none =>
      rw [fetchChatMessages_miss conversationId count (some s) cache now cacheId hcc]
      exact chatPage_nan count s _ hs hp
    | some all =>
      rw [fetchChatMessages_hit conversationId count (some s) cache now cacheId all hcc]
      exact chatPage_nan count s all hs hp

theorem nan_cursor_empty_page_witness :
    (fetchMessagePreviews 1 (some "abc") emptyCache ctx0).1 =
      { data := [], hasMore := false, nextCursor := none } ∧
    (fetchChatMessages "conv" 1 (some "abc") chatCache1 0 "y").1 =
      { data := [], hasMore := false, nextCursor := none } := by
  constructor
  · exact ((nan_cursor_empty_page "abc" (by decide) (by decide)).1 1 emptyCache ctx0)
  · exact ((nan_cursor_empty_page "abc" (by decide) (by decide)).2 "conv" 1 chatCache1 0 "y")
